import Mathlib

/-!
Shallow embedding of the tab-limit enforcement engine of `src/background.js`
(Tab Limiter, MV3 service worker) and proofs of the specification claims.

Modelling conventions:
* JavaScript numbers that flow into limit comparisons (`maxTotal`,
  `maxWindow`) are modelled as `JSNum` = an integer or `NaN`, with the
  IEEE-754 comparison semantics that any comparison against `NaN` is false.
* The chrome session storage is modelled as an explicit `SessionState`
  record threaded through the functions; `chrome.storage.session.set`
  merges, so each write is a record update of the named fields only.
* Tab queries are modelled by passing the observed tab counts (window-scoped
  and global) as arguments; a query that throws is modelled by `Option.none`
  where the code path catches the error (`updateTabCount`).
* External effects of a `handleTabCreated` invocation (the notification and
  the close/relocate action) are returned in a `HandlerResult` record.
-/

/-- A JavaScript number as it is used in the limit comparisons: an integer
or `NaN`. -/
inductive JSNum where
  | nan : JSNum
  | int : Int → JSNum
  deriving DecidableEq

/-- JavaScript `<` on numbers: false whenever either side is `NaN`. -/
def jsLt : JSNum → JSNum → Bool
  | JSNum.int a, JSNum.int b => decide (a < b)
  | _, _ => false

/-- JavaScript `>` on numbers, `a > b` is `b < a` with the same NaN rule. -/
def jsGt (a b : JSNum) : Bool := jsLt b a

/-- String conversion of a number as performed by JS string coercion. -/
def jsNumToString : JSNum → String
  | JSNum.nan => "NaN"
  | JSNum.int i => toString i

/-- A JavaScript value stored in the options object. -/
inductive JSVal where
  | num : JSNum → JSVal
  | bool : Bool → JSVal
  | str : String → JSVal
  deriving DecidableEq

/-- JavaScript truthiness: `NaN`, `0`, `false` and `""` are falsy. -/
def jsTruthy : JSVal → Bool
  | JSVal.num JSNum.nan => false
  | JSVal.num (JSNum.int i) => decide (i ≠ 0)
  | JSVal.bool b => b
  | JSVal.str s => decide (s ≠ "")

/-- JavaScript string coercion of a value. -/
def jsValToString : JSVal → String
  | JSVal.num n => jsNumToString n
  | JSVal.bool b => cond b "true" "false"
  | JSVal.str s => s

/-- The scope of an exceeded limit: the strings "window" / "total" of the
source. -/
inductive Scope where
  | window : Scope
  | total : Scope
  deriving DecidableEq

/-- The options object (DEFAULT_OPTIONS shape, `src/background.js` 8-16). -/
structure Options where
  maxTotal : JSNum
  maxWindow : JSNum
  exceedTabNewWindow : Bool
  displayAlert : Bool
  countPinnedTabs : Bool
  displayBadge : Bool
  alertMessage : String
  deriving DecidableEq

/-- DEFAULT_OPTIONS of `src/background.js` lines 8-16. -/
def DEFAULT_OPTIONS : Options :=
  { maxTotal := JSNum.int 50
    maxWindow := JSNum.int 20
    exceedTabNewWindow := false
    displayAlert := true
    countPinnedTabs := false
    displayBadge := false
    alertMessage := "You decided not to open more than \x7bmaxPlace\x7d tabs in \x7bplace\x7d" }

/-- Property lookup `options[key]` on the options object. -/
def optLookup (o : Options) (key : String) : Option JSVal :=
  if key = "maxTotal" then some (JSVal.num o.maxTotal)
  else if key = "maxWindow" then some (JSVal.num o.maxWindow)
  else if key = "exceedTabNewWindow" then some (JSVal.bool o.exceedTabNewWindow)
  else if key = "displayAlert" then some (JSVal.bool o.displayAlert)
  else if key = "countPinnedTabs" then some (JSVal.bool o.countPinnedTabs)
  else if key = "displayBadge" then some (JSVal.bool o.displayBadge)
  else if key = "alertMessage" then some (JSVal.str o.alertMessage)
  else none

/-- The session counter state persisted in `chrome.storage.session`
(defaults at `src/background.js` lines 32-37). -/
structure SessionState where
  tabCount : Int
  previousTabCount : Int
  amountOfTabsCreated : Int
  passes : Int
  deriving DecidableEq

/-- The default session state returned by `getSessionState` when nothing is
stored (and on a storage read failure). -/
def defaultSessionState : SessionState :=
  { tabCount := -1, previousTabCount := -1, amountOfTabsCreated := -1, passes := 0 }

/-- The function `updateTabCount` (`src/background.js` lines 116-140).
The global tab query is passed as `some len`; `none` models a query that
throws, which the catch block turns into a returned `0` with no state
change.  Returns the delta and the post-state. -/
def updateTabCountQ (q : Option Nat) (st : SessionState) : Int × SessionState :=
  match q with
  | none => (0, st)
  | some len =>
    if (len : Int) = st.tabCount then
      (st.amountOfTabsCreated, st)
    else
      let amountOfTabsCreated : Int :=
        if st.tabCount ≠ -1 then (len : Int) - st.tabCount else 0
      (amountOfTabsCreated,
        { st with
            previousTabCount := st.tabCount
            tabCount := (len : Int)
            amountOfTabsCreated := amountOfTabsCreated })

/-- The function `detectTooManyTabsInWindow` (`src/background.js` 145-150);
`windowTabs` is the length of the current-window tab query result. -/
def detectTooManyTabsInWindow (o : Options) (windowTabs : Nat) : Option Scope :=
  if jsLt o.maxWindow (JSNum.int 1) then none
  else if jsGt (JSNum.int windowTabs) o.maxWindow then some Scope.window
  else none

/-- The function `detectTooManyTabsInTotal` (`src/background.js` 152-157). -/
def detectTooManyTabsInTotal (o : Options) (totalTabs : Nat) : Option Scope :=
  if jsLt o.maxTotal (JSNum.int 1) then none
  else if jsGt (JSNum.int totalTabs) o.maxTotal then some Scope.total
  else none

/-- The function `detectTabLimitExceeded` (`src/background.js` 159-165):
`windowResult || totalResult` on the nullable strings. -/
def detectTabLimitExceeded (o : Options) (windowTabs totalTabs : Nat) : Option Scope :=
  match detectTooManyTabsInWindow o windowTabs with
  | some s => some s
  | none => detectTooManyTabsInTotal o totalTabs

/-- The function `capitalizeFirstLetter` (`src/background.js` 170-172). -/
def capitalizeFirstLetter (s : String) : String :=
  match s.data with
  | [] => ""
  | c :: cs => String.mk (c.toUpper :: cs)

/-- The string content of a `Scope` value as used in the source. -/
def scopeName : Scope → String
  | Scope.window => "window"
  | Scope.total => "total"

/-- The replacer callback of `displayAlert` (`src/background.js` 177-188),
applied to the captured token `p1`.  The returned property values are
coerced to strings by `String.replace`; an absent property coerces to
"undefined", and in the default branch `options[p1] || "?"` maps any falsy
value to "?". -/
def replacer (o : Options) (place : Scope) (p1 : String) : String :=
  if p1 = "place" ∨ p1 = "which" then
    if place = Scope.window then "one window" else "total"
  else if p1 = "maxPlace" ∨ p1 = "maxWhich" then
    match optLookup o ("max" ++ capitalizeFirstLetter (scopeName place)) with
    | some v => jsValToString v
    | none => "undefined"
  else
    match optLookup o p1 with
    | some v => if jsTruthy v then jsValToString v else "?"
    | none => "?"

/-- JavaScript regex whitespace class restricted to the ASCII whitespace
characters (sufficient for the templates of this extension). -/
def jsIsSpace (c : Char) : Bool :=
  c = ' ' || c = '\t' || c = '\n' || c = '\r' || c = '\x0b' || c = '\x0c'

/-- The largest index `m ≥ 1` of a closing brace inside the greedy non-space
run, used for the backtracking step of matching the regex token. -/
def findLastBrace (run : List Char) : Option Nat :=
  (List.range run.length).foldl
    (fun acc m => if 1 ≤ m ∧ run.getD m ' ' = '\x7d' then some m else acc) none

/-- Matching of the regex token pattern of `src/background.js` line 191
at the start of `l`: an opening brace, optional whitespace, a greedy
non-whitespace run (backtracking to an inner closing brace when needed),
optional whitespace and a closing brace.  Returns the captured token and
the number of characters consumed. -/
def tryMatch (l : List Char) : Option (String × Nat) :=
  match l with
  | [] => none
  | c :: rest =>
    if c ≠ '\x7b' then none
    else
      let afterWs := rest.dropWhile (fun d => jsIsSpace d)
      let ws1 := rest.length - afterWs.length
      let run := afterWs.takeWhile (fun d => !jsIsSpace d)
      let afterRun := afterWs.drop run.length
      if run.length = 0 then none
      else
        let after2 := afterRun.dropWhile (fun d => jsIsSpace d)
        let ws2 := afterRun.length - after2.length
        if after2.headD ' ' = '\x7d' then
          some (String.mk run, 1 + ws1 + run.length + ws2 + 1)
        else
          match findLastBrace run with
          | some m => some (String.mk (run.take m), 1 + ws1 + m + 1)
          | none => none

/-- Fuel-driven scanner of the global regex replacement.  Every scanning
step consumes at least one character, so a fuel of the input length is
always sufficient and the fuel-exhausted branch is unreachable; fuel makes
the recursion structural. -/
def replaceTokensF (r : String → String) : Nat → List Char → List Char
  | 0, l => l
  | _ + 1, [] => []
  | fuel + 1, c :: cs =>
    match tryMatch (c :: cs) with
    | some (tok, n) => (r tok).data ++ replaceTokensF r fuel (cs.drop (n - 1))
    | none => c :: replaceTokensF r fuel cs

/-- Global regex replacement of the token pattern over a character list,
scanning left to right and continuing after each match, as
`String.replace` with the global flag does. -/
def replaceTokens (r : String → String) (l : List Char) : List Char :=
  replaceTokensF r l.length l

/-- Rendering of an alert template (`src/background.js` 190-193). -/
def renderTemplate (o : Options) (place : Scope) (template : String) : String :=
  String.mk (replaceTokens (replacer o place) template.data)

/-- The function `displayAlert` (`src/background.js` 174-205): `none` when
no notification is shown, `some msg` when a notification with rendered
message `msg` is requested. -/
def displayAlert (o : Options) (place : Scope) : Option String :=
  if o.displayAlert then some (renderTemplate o place o.alertMessage) else none

/-- The external action taken by `handleExceedTabs`: removing the tab or
creating a new window holding it (with its focus flag). -/
inductive TabAction where
  | removedTab : TabAction
  | createdWindow : Bool → TabAction
  deriving DecidableEq

/-- The function `handleExceedTabs` (`src/background.js` 210-220). -/
def handleExceedTabs (o : Options) (place : Scope) : TabAction :=
  if o.exceedTabNewWindow = true ∧ place = Scope.window then TabAction.createdWindow true
  else TabAction.removedTab

/-- The observable outcome of one `handleTabCreated` invocation: the final
session state, the notification message (if any), and the enforcement
action on the created tab (if any). -/
structure HandlerResult where
  state : SessionState
  alert : Option String
  action : Option TabAction
  deriving DecidableEq

/-- The function `handleTabCreated` (`src/background.js` 244-276).
`windowTabs` / `totalTabs` are the counts seen by the detection queries,
`globalQ` the global count seen by `updateTabCount` (`none` = query throws)
and `postCount` the global count seen by the `handleUpdate` refresh that
runs after an enforcement action. -/
def handleTabCreated (o : Options) (windowTabs totalTabs : Nat) (globalQ : Option Nat)
    (postCount : Nat) (st : SessionState) : HandlerResult :=
  match detectTabLimitExceeded o windowTabs totalTabs with
  | none =>
    { state := (updateTabCountQ globalQ st).2, alert := none, action := none }
  | some place =>
    let amountOfTabsCreated := (updateTabCountQ globalQ st).1
    let st1 := (updateTabCountQ globalQ st).2
    if st1.passes > 0 then
      { state := { st1 with passes := st1.passes - 1 }, alert := none, action := none }
    else
      let alertMsg := displayAlert o place
      if amountOfTabsCreated = 1 then
        { state := (updateTabCountQ (some postCount) st1).2, alert := alertMsg
          action := some (handleExceedTabs o place) }
      else if amountOfTabsCreated > 1 then
        { state := { st1 with passes := amountOfTabsCreated - 1 }, alert := alertMsg
          action := none }
      else if amountOfTabsCreated = -1 then
        { state := (updateTabCountQ (some postCount) st1).2, alert := alertMsg
          action := some (handleExceedTabs o place) }
      else
        { state := st1, alert := alertMsg, action := none }

/-- The inputs of one tab-creation event for iterating the handler. -/
structure EventIn where
  windowTabs : Nat
  totalTabs : Nat
  globalQ : Option Nat
  postCount : Nat
  deriving DecidableEq

/-- Results of running the handler over a list of consecutive events. -/
def runEvents (o : Options) : List EventIn → SessionState → List HandlerResult
  | [], _ => []
  | e :: es, st =>
    let r := handleTabCreated o e.windowTabs e.totalTabs e.globalQ e.postCount st
    r :: runEvents o es r.state

/-- Final session state after a list of consecutive events. -/
def runFinal (o : Options) : List EventIn → SessionState → SessionState
  | [], st => st
  | e :: es, st =>
    runFinal o es (handleTabCreated o e.windowTabs e.totalTabs e.globalQ e.postCount st).state

/-- The function `updateTabCount` (`src/background.js` 116-140) with the
outcome of its session-storage write made explicit: `setOk = false` models
a failing `chrome.storage.session.set`, which `updateSessionState`
(lines 49-55) catches and swallows, so `updateTabCount` still returns the
computed delta while the stored counters remain unchanged.  The plain
`updateTabCountQ` is the `setOk = true` case. -/
def updateTabCountW (q : Option Nat) (setOk : Bool) (st : SessionState) : Int × SessionState :=
  match q with
  | none => (0, st)
  | some len =>
    if (len : Int) = st.tabCount then
      (st.amountOfTabsCreated, st)
    else
      let amountOfTabsCreated : Int :=
        if st.tabCount ≠ -1 then (len : Int) - st.tabCount else 0
      (amountOfTabsCreated,
        if setOk then
          { st with
              previousTabCount := st.tabCount
              tabCount := (len : Int)
              amountOfTabsCreated := amountOfTabsCreated }
        else st)

/-- The function `handleTabCreated` (`src/background.js` 244-276) with the
session-storage write outcome of its `updateTabCount` call made explicit
(the refresh after an enforcement action is left succeeding). -/
def handleTabCreatedW (o : Options) (windowTabs totalTabs : Nat) (globalQ : Option Nat)
    (setOk : Bool) (postCount : Nat) (st : SessionState) : HandlerResult :=
  match detectTabLimitExceeded o windowTabs totalTabs with
  | none =>
    { state := (updateTabCountW globalQ setOk st).2, alert := none, action := none }
  | some place =>
    let amountOfTabsCreated := (updateTabCountW globalQ setOk st).1
    let st1 := (updateTabCountW globalQ setOk st).2
    if st1.passes > 0 then
      { state := { st1 with passes := st1.passes - 1 }, alert := none, action := none }
    else
      let alertMsg := displayAlert o place
      if amountOfTabsCreated = 1 then
        { state := (updateTabCountQ (some postCount) st1).2, alert := alertMsg
          action := some (handleExceedTabs o place) }
      else if amountOfTabsCreated > 1 then
        { state := { st1 with passes := amountOfTabsCreated - 1 }, alert := alertMsg
          action := none }
      else if amountOfTabsCreated = -1 then
        { state := (updateTabCountQ (some postCount) st1).2, alert := alertMsg
          action := some (handleExceedTabs o place) }
      else
        { state := st1, alert := alertMsg, action := none }

/-! Concrete fixtures used to instantiate the theorems. -/

/-- Options with a per-window limit of 1 and everything else default. -/
def optWin1 : Options := { DEFAULT_OPTIONS with maxWindow := JSNum.int 1 }

/-- Options with a global limit of 10 and the window scope disabled. -/
def optTotal10 : Options :=
  { DEFAULT_OPTIONS with maxTotal := JSNum.int 10, maxWindow := JSNum.int 0 }

/-- Options with both limits set to 1. -/
def optBoth1 : Options :=
  { DEFAULT_OPTIONS with maxWindow := JSNum.int 1, maxTotal := JSNum.int 1 }

/-- Options whose alert template is a single token naming a present but
falsy configuration key. -/
def optFalsyToken : Options :=
  { DEFAULT_OPTIONS with alertMessage := "\x7bcountPinnedTabs\x7d" }

/-- Options with a global limit of 75. -/
def optTotal75 : Options := { DEFAULT_OPTIONS with maxTotal := JSNum.int 75 }

/-- A session state holding a pass budget of 2. -/
def stPasses2 : SessionState :=
  { tabCount := 1, previousTabCount := -1, amountOfTabsCreated := -1, passes := 2 }

/-- A session state that last observed 10 tabs, with no pass budget. -/
def stCount10 : SessionState :=
  { tabCount := 10, previousTabCount := -1, amountOfTabsCreated := -1, passes := 0 }

/-- A session state that last observed 5 tabs. -/
def stCount5 : SessionState :=
  { tabCount := 5, previousTabCount := 4, amountOfTabsCreated := 1, passes := 0 }

/-- A tab-creation event observing 15 tabs in total against `optTotal10`,
with a failing global query in `updateTabCount`. -/
def evSuppress : EventIn :=
  { windowTabs := 2, totalTabs := 15, globalQ := none, postCount := 0 }

/-! Helper lemmas. -/

/-- Updating the tab count never touches the `passes` field: the storage
write of `updateTabCount` sets only the three counter keys. -/
theorem updateTabCountQ_passes (q : Option Nat) (st : SessionState) :
    (updateTabCountQ q st).2.passes = st.passes := by
  cases q with
  | none => rfl
  | some len => by_cases h : (len : Int) = st.tabCount <;> simp [updateTabCountQ, h]

/-- Shape of the suppression branch of `handleTabCreated` (lines 257-260):
with an exceeded scope and a positive pass budget, the handler only
decrements `passes`. -/
theorem handleTabCreated_suppress (o : Options) (w t : Nat) (q : Option Nat) (p : Nat)
    (st : SessionState) (pl : Scope)
    (hdet : detectTabLimitExceeded o w t = some pl) (hp : 0 < st.passes) :
    handleTabCreated o w t q p st =
      { state := { (updateTabCountQ q st).2 with passes := st.passes - 1 }
        alert := none, action := none } := by
  have hpass := updateTabCountQ_passes q st
  simp only [handleTabCreated, hdet]
  rw [if_pos (by rw [hpass]; exact hp), hpass]

/-- Shape of the batch branch of `handleTabCreated` (lines 267-268): with an
exceeded scope, no pass budget and a delta above 1, the handler only sets
`passes` to the delta minus 1 (after the alert). -/
theorem handleTabCreated_batch (o : Options) (w t : Nat) (q : Option Nat) (p : Nat)
    (st : SessionState) (pl : Scope)
    (hdet : detectTabLimitExceeded o w t = some pl) (hp : st.passes ≤ 0)
    (hd : 1 < (updateTabCountQ q st).1) :
    handleTabCreated o w t q p st =
      { state := { (updateTabCountQ q st).2 with passes := (updateTabCountQ q st).1 - 1 }
        alert := displayAlert o pl, action := none } := by
  have hpass := updateTabCountQ_passes q st
  simp only [handleTabCreated, hdet]
  rw [if_neg (by rw [hpass]; omega), if_neg (by omega), if_pos hd]

/-- Shape of the fallthrough of `handleTabCreated` (after line 272): with an
exceeded scope, no pass budget and a delta matching none of `1`, `> 1`,
`-1`, the handler changes nothing beyond the counter update and the
alert. -/
theorem handleTabCreated_fallthrough (o : Options) (w t : Nat) (q : Option Nat) (p : Nat)
    (st : SessionState) (pl : Scope)
    (hdet : detectTabLimitExceeded o w t = some pl) (hp : st.passes ≤ 0)
    (hd : (updateTabCountQ q st).1 = 0 ∨
      ((updateTabCountQ q st).1 < 0 ∧ (updateTabCountQ q st).1 ≠ -1)) :
    handleTabCreated o w t q p st =
      { state := (updateTabCountQ q st).2, alert := displayAlert o pl, action := none } := by
  have hpass := updateTabCountQ_passes q st
  simp only [handleTabCreated, hdet]
  rw [if_neg (by rw [hpass]; omega), if_neg (by omega), if_neg (by omega), if_neg (by omega)]

/-- Running any number of events against a pass budget at least as large
suppresses every one of them (no action, no alert) and decrements the
budget once per event. -/
theorem runEvents_suppress (o : Options) :
    ∀ (evs : List EventIn) (st : SessionState) (n : Nat),
      st.passes = (n : Int) → evs.length ≤ n →
      (∀ e ∈ evs, (detectTabLimitExceeded o e.windowTabs e.totalTabs).isSome) →
      (∀ r ∈ runEvents o evs st, r.action = none ∧ r.alert = none) ∧
      (runFinal o evs st).passes = (n : Int) - evs.length := by
  intro evs
  induction evs with
  | nil =>
    intro st n h1 _ _
    simp [runEvents, runFinal, h1]
  | cons e es ih =>
    intro st n h1 h2 h3
    obtain ⟨pl, hpl⟩ := Option.isSome_iff_exists.mp (h3 e (List.mem_cons_self e es))
    have hlen : es.length + 1 ≤ n := by simpa [List.length_cons] using h2
    have hp : 0 < st.passes := by rw [h1]; exact_mod_cast Nat.lt_of_lt_of_le (Nat.succ_pos _) hlen
    have hsup := handleTabCreated_suppress o e.windowTabs e.totalTabs e.globalQ e.postCount st pl hpl hp
    have hstep :
        (handleTabCreated o e.windowTabs e.totalTabs e.globalQ e.postCount st).state.passes =
          ((n - 1 : Nat) : Int) := by
      rw [hsup]
      simp only []
      rw [h1]
      push_cast [Nat.cast_sub (by omega : 1 ≤ n)]
      ring
    have ih' := ih (handleTabCreated o e.windowTabs e.totalTabs e.globalQ e.postCount st).state
      (n - 1) hstep (by omega) (fun e' he' => h3 e' (List.mem_cons_of_mem e he'))
    constructor
    · intro r hr
      rw [runEvents] at hr
      rcases List.mem_cons.mp hr with hfst | hrest
      · rw [hfst, hsup]
        exact ⟨rfl, rfl⟩
      · exact ih'.1 r hrest
    · rw [runFinal, ih'.2]
      push_cast [Nat.cast_sub (by omega : 1 ≤ n), List.length_cons]
      ring

/-- A character that is not an opening brace cannot start a token match. -/
theorem tryMatch_ne_brace (c : Char) (cs : List Char) (h : c ≠ '\x7b') :
    tryMatch (c :: cs) = none := by
  simp [tryMatch, h]

/-- Text containing no opening brace passes through the fueled scanner
unchanged. -/
theorem replaceTokensF_no_brace (r : String → String) :
    ∀ (fuel : Nat) (l : List Char), '\x7b' ∉ l → replaceTokensF r fuel l = l
  | 0, _, _ => rfl
  | _ + 1, [], _ => rfl
  | fuel + 1, c :: cs, h => by
    have hc : c ≠ '\x7b' := fun he => h (he ▸ List.mem_cons_self c cs)
    simp [replaceTokensF, tryMatch_ne_brace c cs hc,
      replaceTokensF_no_brace r fuel cs (fun hm => h (List.mem_cons_of_mem c hm))]

/-- Text containing no opening brace passes through the token replacement
unchanged. -/
theorem replaceTokens_no_brace (r : String → String) (l : List Char) (h : '\x7b' ∉ l) :
    replaceTokens r l = l :=
  replaceTokensF_no_brace r l.length l h

/-! Claim theorems. -/

/-- C1: whenever a limit scope is detected as exceeded and the stored
session state has `passes > 0`, `handleTabCreated` decrements `passes` by
exactly 1, persists the new value, and returns without closing or
relocating the tab and without displaying an alert. -/
theorem C1_pass_suppression (o : Options) (w t : Nat) (q : Option Nat) (p : Nat)
    (st : SessionState) (pl : Scope)
    (hdet : detectTabLimitExceeded o w t = some pl) (hp : 0 < st.passes) :
    (handleTabCreated o w t q p st).state.passes = st.passes - 1 ∧
    (handleTabCreated o w t q p st).action = none ∧
    (handleTabCreated o w t q p st).alert = none := by
  rw [handleTabCreated_suppress o w t q p st pl hdet hp]
  exact ⟨rfl, rfl, rfl⟩

/-- Witness for C1: a window limit of 1, 2 tabs in the window and a pass
budget of 2: the handler leaves passes = 1, no action, no alert. -/
theorem C1_pass_suppression_witness :
    (handleTabCreated optWin1 2 2 (some 2) 2 stPasses2).state.passes = stPasses2.passes - 1 ∧
    (handleTabCreated optWin1 2 2 (some 2) 2 stPasses2).action = none ∧
    (handleTabCreated optWin1 2 2 (some 2) 2 stPasses2).alert = none :=
  C1_pass_suppression optWin1 2 2 (some 2) 2 stPasses2 Scope.window (by decide) (by decide)

/-- C2: whenever a limit scope is exceeded, `passes = 0` and the delta
returned by `updateTabCount` is strictly greater than 1, the handler takes
no close/relocate action and persists `passes = delta - 1`; consequently
any `delta - 1` subsequent creation events with an exceeded scope are all
suppressed (no action, no alert) and exhaust the budget back to 0. -/
theorem C2_batch_pass_budget (o : Options) (w t g p : Nat)
    (st : SessionState) (pl : Scope)
    (hdet : detectTabLimitExceeded o w t = some pl) (hp : st.passes = 0)
    (hd : 1 < (updateTabCountQ (some g) st).1) :
    (handleTabCreated o w t (some g) p st).action = none ∧
    (handleTabCreated o w t (some g) p st).state.passes = (updateTabCountQ (some g) st).1 - 1 ∧
    (∀ evs : List EventIn,
      evs.length = ((updateTabCountQ (some g) st).1 - 1).toNat →
      (∀ e ∈ evs, (detectTabLimitExceeded o e.windowTabs e.totalTabs).isSome) →
      (∀ r ∈ runEvents o evs (handleTabCreated o w t (some g) p st).state,
        r.action = none ∧ r.alert = none) ∧
      (runFinal o evs (handleTabCreated o w t (some g) p st).state).passes = 0) := by
  have hb := handleTabCreated_batch o w t (some g) p st pl hdet (by omega) hd
  refine ⟨by rw [hb], by rw [hb], ?_⟩
  intro evs hlen hdet'
  have hpass : (handleTabCreated o w t (some g) p st).state.passes
      = (((updateTabCountQ (some g) st).1 - 1).toNat : Int) := by
    rw [hb]
    show (updateTabCountQ (some g) st).1 - 1 = (((updateTabCountQ (some g) st).1 - 1).toNat : Int)
    omega
  have hrun := runEvents_suppress o evs (handleTabCreated o w t (some g) p st).state
    ((updateTabCountQ (some g) st).1 - 1).toNat hpass (le_of_eq hlen) hdet'
  refine ⟨hrun.1, ?_⟩
  rw [hrun.2, hlen]
  simp

/-- Witness for C2: global limit 10, stored count 10, new count 15: delta 5,
passes set to 4, no action; 4 further exceeded events are suppressed and
end with passes = 0. -/
theorem C2_batch_pass_budget_witness :
    (handleTabCreated optTotal10 2 15 (some 15) 15 stCount10).action = none ∧
    (handleTabCreated optTotal10 2 15 (some 15) 15 stCount10).state.passes = 4 ∧
    (∀ r ∈ runEvents optTotal10 (List.replicate 4 evSuppress)
        (handleTabCreated optTotal10 2 15 (some 15) 15 stCount10).state,
      r.action = none ∧ r.alert = none) ∧
    (runFinal optTotal10 (List.replicate 4 evSuppress)
        (handleTabCreated optTotal10 2 15 (some 15) 15 stCount10).state).passes = 0 := by
  have h := C2_batch_pass_budget optTotal10 2 15 15 15 stCount10 Scope.total
    (by decide) (by decide) (by decide)
  have h3 := h.2.2 (List.replicate 4 evSuppress) (by decide) (by decide)
  exact ⟨h.1, by rw [h.2.1]; decide, h3.1, h3.2⟩

/-- C3: a scope check yields its tag iff its configured maximum is an
actual number at least 1 and the observed count strictly exceeds it; a
count equal to the maximum is not exceeded, a maximum below 1 disables the
scope, and a NaN maximum never triggers (comparisons against NaN are
false).  Each check can only return `none` or its own tag. -/
theorem C3_detection_boundary (o : Options) (w t : Nat) :
    (detectTooManyTabsInWindow o w = some Scope.window ↔
      ∃ m : Int, o.maxWindow = JSNum.int m ∧ 1 ≤ m ∧ m < (w : Int)) ∧
    (detectTooManyTabsInWindow o w = none ∨
      detectTooManyTabsInWindow o w = some Scope.window) ∧
    (detectTooManyTabsInTotal o t = some Scope.total ↔
      ∃ m : Int, o.maxTotal = JSNum.int m ∧ 1 ≤ m ∧ m < (t : Int)) ∧
    (detectTooManyTabsInTotal o t = none ∨
      detectTooManyTabsInTotal o t = some Scope.total) := by
  refine ⟨?_, ?_, ?_, ?_⟩
  · cases hm : o.maxWindow with
    | nan => simp [detectTooManyTabsInWindow, jsGt, jsLt, hm]
    | int m =>
      simp only [detectTooManyTabsInWindow, jsGt, jsLt, hm, JSNum.int.injEq]
      split_ifs with h1 h2 <;>
        simp_all [decide_eq_true_eq]
  · unfold detectTooManyTabsInWindow
    split_ifs <;> simp
  · cases hm : o.maxTotal with
    | nan => simp [detectTooManyTabsInTotal, jsGt, jsLt, hm]
    | int m =>
      simp only [detectTooManyTabsInTotal, jsGt, jsLt, hm, JSNum.int.injEq]
      split_ifs with h1 h2 <;>
        simp_all [decide_eq_true_eq]
  · unfold detectTooManyTabsInTotal
    split_ifs <;> simp

/-- C4: whenever both the window-scope and the total-scope check yield
their tags, `detectTabLimitExceeded` returns `window` (fixed priority of
window over total). -/
theorem C4_window_priority (o : Options) (w t : Nat)
    (hw : detectTooManyTabsInWindow o w = some Scope.window)
    (ht : detectTooManyTabsInTotal o t = some Scope.total) :
    detectTabLimitExceeded o w t = some Scope.window := by
  simp [detectTabLimitExceeded, hw]

/-- Witness for C4: both limits 1 and 2 tabs everywhere: both scopes are
exceeded and the result is `window`. -/
theorem C4_window_priority_witness :
    detectTabLimitExceeded optBoth1 2 2 = some Scope.window :=
  C4_window_priority optBoth1 2 2 (by decide) (by decide)

/-- C5: `updateTabCount` with a count equal to the stored `tabCount`
returns the stored delta and changes nothing; with a different count it
persists `previousTabCount := old tabCount`, `tabCount := new count` and
the delta `new - old` (or 0 on the first observation, old = -1), leaves
`passes` alone, and returns the delta. -/
theorem C5_updateTabCount_spec (st : SessionState) (g : Nat) :
    ((g : Int) = st.tabCount →
      updateTabCountQ (some g) st = (st.amountOfTabsCreated, st)) ∧
    ((g : Int) ≠ st.tabCount →
      (updateTabCountQ (some g) st).1 =
        (if st.tabCount ≠ -1 then (g : Int) - st.tabCount else 0) ∧
      (updateTabCountQ (some g) st).2.previousTabCount = st.tabCount ∧
      (updateTabCountQ (some g) st).2.tabCount = (g : Int) ∧
      (updateTabCountQ (some g) st).2.amountOfTabsCreated = (updateTabCountQ (some g) st).1 ∧
      (updateTabCountQ (some g) st).2.passes = st.passes) := by
  constructor
  · intro h
    simp [updateTabCountQ, h]
  · intro h
    simp [updateTabCountQ, h]

/-- Witness for C5: with stored count 5, observing 5 is a no-op returning
the stored delta 1; observing 8 shifts the counters and returns delta 3. -/
theorem C5_updateTabCount_spec_witness :
    (updateTabCountQ (some 5) stCount5 = (stCount5.amountOfTabsCreated, stCount5)) ∧
    ((updateTabCountQ (some 8) stCount5).1 =
        (if stCount5.tabCount ≠ -1 then (8 : Int) - stCount5.tabCount else 0) ∧
      (updateTabCountQ (some 8) stCount5).2.previousTabCount = stCount5.tabCount ∧
      (updateTabCountQ (some 8) stCount5).2.tabCount = (8 : Int) ∧
      (updateTabCountQ (some 8) stCount5).2.amountOfTabsCreated =
        (updateTabCountQ (some 8) stCount5).1 ∧
      (updateTabCountQ (some 8) stCount5).2.passes = stCount5.passes) :=
  ⟨(C5_updateTabCount_spec stCount5 5).1 (by decide),
   (C5_updateTabCount_spec stCount5 8).2 (by decide)⟩

/-- C6: with an exceeded scope, `passes = 0` and a delta of 0 (or negative
but not the sentinel -1), the handler falls through every branch: the tab
is neither closed nor relocated and the stored `passes` value is not
modified. -/
theorem C6_delta_zero_noop (o : Options) (w t : Nat) (q : Option Nat) (p : Nat)
    (st : SessionState) (pl : Scope)
    (hdet : detectTabLimitExceeded o w t = some pl) (hp : st.passes = 0)
    (hd : (updateTabCountQ q st).1 = 0 ∨
      ((updateTabCountQ q st).1 < 0 ∧ (updateTabCountQ q st).1 ≠ -1)) :
    (handleTabCreated o w t q p st).action = none ∧
    (handleTabCreated o w t q p st).state.passes = st.passes ∧
    (handleTabCreated o w t q p st).state = (updateTabCountQ q st).2 := by
  rw [handleTabCreated_fallthrough o w t q p st pl hdet (by omega) hd]
  exact ⟨rfl, updateTabCountQ_passes q st, rfl⟩

/-- Witness for C6: global limit 10, first ever observation of 15 tabs:
detection fires, the delta is 0, and nothing is enforced. -/
theorem C6_delta_zero_noop_witness :
    (handleTabCreated optTotal10 2 15 (some 15) 15 defaultSessionState).action = none ∧
    (handleTabCreated optTotal10 2 15 (some 15) 15 defaultSessionState).state.passes =
      defaultSessionState.passes ∧
    (handleTabCreated optTotal10 2 15 (some 15) 15 defaultSessionState).state =
      (updateTabCountQ (some 15) defaultSessionState).2 :=
  C6_delta_zero_noop optTotal10 2 15 (some 15) 15 defaultSessionState Scope.total
    (by decide) (by decide) (by decide)

/-- C7: `handleExceedTabs` relocates the tab into a newly created focused
window iff the scope is `window` and `exceedTabNewWindow` is set; in every
other case it removes the tab. -/
theorem C7_exceed_action (o : Options) (pl : Scope) :
    (handleExceedTabs o pl = TabAction.createdWindow true ↔
      (pl = Scope.window ∧ o.exceedTabNewWindow = true)) ∧
    (handleExceedTabs o pl = TabAction.removedTab ↔
      ¬(pl = Scope.window ∧ o.exceedTabNewWindow = true)) := by
  unfold handleExceedTabs
  split_ifs with h
  · obtain ⟨h1, h2⟩ := h
    simp [h1, h2]
  · have h2 : ¬(pl = Scope.window ∧ o.exceedTabNewWindow = true) := fun hc => h ⟨hc.2, hc.1⟩
    simp [h2]

/-- Shape of the no-scope branch of `handleTabCreated` (lines 249-252). -/
theorem handleTabCreated_none (o : Options) (w t : Nat) (q : Option Nat) (p : Nat)
    (st : SessionState) (hdet : detectTabLimitExceeded o w t = none) :
    handleTabCreated o w t q p st =
      { state := (updateTabCountQ q st).2, alert := none, action := none } := by
  simp [handleTabCreated, hdet]

/-- Shape of the enforcing branches of `handleTabCreated` (lines 264-266
and 269-271): delta exactly 1 or exactly -1 enforces on the tab and then
refreshes the counters. -/
theorem handleTabCreated_enforce_one (o : Options) (w t : Nat) (q : Option Nat) (p : Nat)
    (st : SessionState) (pl : Scope)
    (hdet : detectTabLimitExceeded o w t = some pl) (hp : st.passes ≤ 0)
    (hd : (updateTabCountQ q st).1 = 1 ∨ (updateTabCountQ q st).1 = -1) :
    handleTabCreated o w t q p st =
      { state := (updateTabCountQ (some p) (updateTabCountQ q st).2).2
        alert := displayAlert o pl, action := some (handleExceedTabs o pl) } := by
  have hpass := updateTabCountQ_passes q st
  simp only [handleTabCreated, hdet]
  rcases hd with hd | hd
  · rw [if_neg (by rw [hpass]; omega), if_pos hd]
  · rw [if_neg (by rw [hpass]; omega), if_neg (by omega), if_neg (by omega), if_pos hd]

/-- C8 counterexample: the template consists of the single token
`countPinnedTabs`, a key present in the configuration with value `false`;
the claim says the token becomes `config[token]` (the string "false"), but
the code renders the literal "?" because `options[p1] || "?"` also maps
present falsy values to "?". -/
theorem C8_counterexample :
    optLookup optFalsyToken "countPinnedTabs" = some (JSVal.bool false) ∧
    jsValToString (JSVal.bool false) = "false" ∧
    displayAlert optFalsyToken Scope.window = some "?" ∧
    displayAlert optFalsyToken Scope.window ≠ some "false" := by
  decide

/-- C8 (amended): the renderer replaces each brace-delimited, optionally
whitespace-padded token: `place` and `which` become "one window" for the
window scope and "total" otherwise; `maxPlace` and `maxWhich` become the
config value `maxWindow` or `maxTotal` selected by the scope name; any
other token becomes `config[token]` when that key is present with a truthy
value, and the literal "?" when the key is absent or its value is falsy;
unmatched text passes through unchanged and the empty template renders
empty. -/
theorem C8_render_spec :
    (∀ (o : Options) (pl : Scope),
      (replacer o pl "place" = if pl = Scope.window then "one window" else "total") ∧
      (replacer o pl "which" = if pl = Scope.window then "one window" else "total") ∧
      (replacer o pl "maxPlace" =
        jsNumToString (if pl = Scope.window then o.maxWindow else o.maxTotal)) ∧
      (replacer o pl "maxWhich" =
        jsNumToString (if pl = Scope.window then o.maxWindow else o.maxTotal)) ∧
      (∀ tok : String,
        tok ≠ "place" → tok ≠ "which" → tok ≠ "maxPlace" → tok ≠ "maxWhich" →
        replacer o pl tok =
          (optLookup o tok).elim "?"
            (fun v => if jsTruthy v then jsValToString v else "?")) ∧
      renderTemplate o pl "" = "" ∧
      (∀ s : String, '\x7b' ∉ s.data → renderTemplate o pl s = s)) ∧
    renderTemplate optTotal75 Scope.total "\x7b maxTotal \x7d" = "75" ∧
    renderTemplate DEFAULT_OPTIONS Scope.window "\x7bfoo\x7d" = "?" := by
  refine ⟨fun o pl => ⟨?_, ?_, ?_, ?_, ?_, ?_, ?_⟩, by decide, by decide⟩
  · cases pl <;> rfl
  · cases pl <;> rfl
  · cases pl <;> rfl
  · cases pl <;> rfl
  · intro tok h1 h2 h3 h4
    unfold replacer
    rw [if_neg (by simp [h1, h2]), if_neg (by simp [h3, h4])]
    cases optLookup o tok <;> rfl
  · rfl
  · intro s hs
    unfold renderTemplate
    rw [replaceTokens_no_brace _ _ hs]

/-- Witness for C8: the unknown token `foo` renders "?", the empty template
renders empty, brace-free text passes through, and the whitespace-padded
token resolves against the configuration. -/
theorem C8_render_spec_witness :
    replacer DEFAULT_OPTIONS Scope.total "foo" =
      (optLookup DEFAULT_OPTIONS "foo").elim "?"
        (fun v => if jsTruthy v then jsValToString v else "?") ∧
    renderTemplate DEFAULT_OPTIONS Scope.total "" = "" ∧
    renderTemplate DEFAULT_OPTIONS Scope.total "hello" = "hello" ∧
    renderTemplate optTotal75 Scope.total "\x7b maxTotal \x7d" = "75" := by
  have h := C8_render_spec
  have h1 := (h.1 DEFAULT_OPTIONS Scope.total).2.2.2.2
  exact ⟨h1.1 "foo" (by decide) (by decide) (by decide) (by decide),
    h1.2.1, h1.2.2 "hello" (by decide), h.2.1⟩

/-- C9: the invariant `passes ≥ 0` is preserved by every tab-creation
handler invocation: each write of `passes` (the guarded decrement and the
batch assignment `delta - 1`) yields a non-negative value. -/
theorem C9_passes_nonneg (o : Options) (w t : Nat) (q : Option Nat) (p : Nat)
    (st : SessionState) (h : 0 ≤ st.passes) :
    0 ≤ (handleTabCreated o w t q p st).state.passes := by
  cases hdet : detectTabLimitExceeded o w t with
  | none =>
    rw [handleTabCreated_none o w t q p st hdet]
    show 0 ≤ (updateTabCountQ q st).2.passes
    rw [updateTabCountQ_passes]
    exact h
  | some pl =>
    by_cases hp : 0 < st.passes
    · rw [handleTabCreated_suppress o w t q p st pl hdet hp]
      show 0 ≤ st.passes - 1
      omega
    · have hp' : st.passes ≤ 0 := by omega
      by_cases h1 : (updateTabCountQ q st).1 = 1
      · rw [handleTabCreated_enforce_one o w t q p st pl hdet hp' (Or.inl h1)]
        show 0 ≤ (updateTabCountQ (some p) (updateTabCountQ q st).2).2.passes
        rw [updateTabCountQ_passes, updateTabCountQ_passes]
        exact h
      · by_cases h2 : 1 < (updateTabCountQ q st).1
        · rw [handleTabCreated_batch o w t q p st pl hdet hp' h2]
          show 0 ≤ (updateTabCountQ q st).1 - 1
          omega
        · by_cases h3 : (updateTabCountQ q st).1 = -1
          · rw [handleTabCreated_enforce_one o w t q p st pl hdet hp' (Or.inr h3)]
            show 0 ≤ (updateTabCountQ (some p) (updateTabCountQ q st).2).2.passes
            rw [updateTabCountQ_passes, updateTabCountQ_passes]
            exact h
          · rw [handleTabCreated_fallthrough o w t q p st pl hdet hp' (by omega)]
            show 0 ≤ (updateTabCountQ q st).2.passes
            rw [updateTabCountQ_passes]
            exact h

/-- Witness for C9: starting from the default state (passes = 0) with an
exceeded window scope, the resulting passes value is non-negative. -/
theorem C9_passes_nonneg_witness :
    0 ≤ (handleTabCreated optWin1 2 2 (some 2) 2 defaultSessionState).state.passes :=
  C9_passes_nonneg optWin1 2 2 (some 2) 2 defaultSessionState (by decide)

/-- A successful session-storage write makes `updateTabCountW` coincide
with the plain `updateTabCountQ`. -/
theorem updateTabCountW_true (q : Option Nat) (st : SessionState) :
    updateTabCountW q true st = updateTabCountQ q st := by
  cases q with
  | none => rfl
  | some len =>
    by_cases h : (len : Int) = st.tabCount <;> simp [updateTabCountW, updateTabCountQ, h]

/-- A successful session-storage write makes `handleTabCreatedW` coincide
with the plain `handleTabCreated`. -/
theorem handleTabCreatedW_true (o : Options) (w t : Nat) (q : Option Nat) (p : Nat)
    (st : SessionState) :
    handleTabCreatedW o w t q true p st = handleTabCreated o w t q p st := by
  unfold handleTabCreatedW handleTabCreated
  rw [updateTabCountW_true]

/-- C10 counterexample: a session-storage write failure during
`updateTabCount` is swallowed inside `updateSessionState` (lines 49-55),
so `updateTabCount` returns the computed delta, not 0: with stored count
10 and 11 tabs observed against a global limit of 10, the delta is 1 —
contradicting the claim that such a failure makes `updateTabCount` return
0 — and the handler takes the `=== 1` branch and removes the tab,
contradicting the claim that the tab is neither closed nor relocated. -/
theorem C10_counterexample :
    (updateTabCountW (some 11) false stCount10).1 = 1 ∧
    (handleTabCreatedW optTotal10 2 11 (some 11) false 11 stCount10).action =
      some TabAction.removedTab := by
  decide

/-- C10 (amended): when the global tab query fails, `updateTabCount`
catches the error and returns delta 0 (not the sentinel -1) with the
state unchanged; consequently a tab-creation event with an exceeded scope
takes no close/relocate action on that failure path, and with no pass
budget the delta-0 fallthrough leaves the session state untouched (the
`-1` branch is not reached).  A session-storage write failure, in
contrast, never reaches this catch: it is swallowed inside
`updateSessionState`, and `updateTabCount` returns the computed delta
while the stored counters stay unchanged, so enforcement proceeds as if
the write had succeeded. -/
theorem C10_query_failure (o : Options) (w t p : Nat) (st : SessionState) (pl : Scope)
    (g : Nat) :
    updateTabCountQ none st = (0, st) ∧
    (detectTabLimitExceeded o w t = some pl →
      (handleTabCreated o w t none p st).action = none ∧
      (st.passes = 0 → (handleTabCreated o w t none p st).state = st)) ∧
    ((g : Int) ≠ st.tabCount →
      (updateTabCountW (some g) false st).1 =
        (if st.tabCount ≠ -1 then (g : Int) - st.tabCount else 0) ∧
      (updateTabCountW (some g) false st).2 = st) := by
  refine ⟨rfl, fun hdet => ?_, fun hg => ?_⟩
  · by_cases hp : 0 < st.passes
    · rw [handleTabCreated_suppress o w t none p st pl hdet hp]
      exact ⟨rfl, fun h0 => absurd h0 (by omega)⟩
    · rw [handleTabCreated_fallthrough o w t none p st pl hdet (by omega) (Or.inl rfl)]
      exact ⟨rfl, fun _ => rfl⟩
  · simp [updateTabCountW, hg]

/-- Witness for C10: global limit 10 exceeded by 15 tabs, failing query:
delta 0 is returned, no action is taken and the state is unchanged; a
failing storage write with stored count 10 and 11 tabs observed returns
delta 1 with unchanged counters. -/
theorem C10_query_failure_witness :
    updateTabCountQ none stCount10 = (0, stCount10) ∧
    (handleTabCreated optTotal10 2 15 none 15 stCount10).action = none ∧
    (handleTabCreated optTotal10 2 15 none 15 stCount10).state = stCount10 ∧
    (updateTabCountW (some 11) false stCount10).1 =
      (if stCount10.tabCount ≠ -1 then (11 : Int) - stCount10.tabCount else 0) ∧
    (updateTabCountW (some 11) false stCount10).2 = stCount10 := by
  have h := C10_query_failure optTotal10 2 15 15 stCount10 Scope.total 11
  have h2 := h.2.1 (by decide)
  have h3 := h.2.2 (by decide)
  exact ⟨h.1, h2.1, h2.2 (by decide), h3.1, h3.2⟩
